import Mathlib

/-!
Shallow embedding of the Book-Store Django application (apps `book`, `cart`,
`user`) at the level of its view logic and data model.

Database rows are modelled as Lean structures, tables as lists kept in
insertion order (Django's default iteration order for these unordered
models), and each HTTP handler as a function from a store and request data
to a `Response` paired with the post-request store.  Querysets translate to
`List.filter`, `objects.get` to a match on the filtered list (raising
`DoesNotExist` / `MultipleObjectsReturned` becomes the 404 / 500 branches the
handlers produce), `.first()` to `List.head?`, and row `save()` to an update
of the list entry with the row's primary key.  Integer request fields arrive
as arbitrary `Int`s (JSON payloads are client-controlled); the Python
truthiness tests (`if not quantity:`) are modelled by `truthyInt`.
No transaction wrapping is modelled because the handlers use none: every
`save()` commits immediately, which is exactly what the atomicity claims
are about.
-/

namespace BookStore

/-- A row of `book.models.Book` (id, name, author, description, price, stock,
owning user).  `price` and `stock` are `PositiveIntegerField`s; they are
carried as `Int` so that the handlers' arithmetic is the source's and
non-negativity is a provable invariant rather than a typing artefact. -/
structure Book where
  id : Nat
  name : String
  author : String
  description : Option String
  price : Int
  stock : Int
  userId : Nat
deriving Repr, DecidableEq

/-- A row of `cart.models.CartModel`. -/
structure CartModel where
  id : Nat
  userId : Nat
  total_price : Int
  total_quantity : Int
  is_ordered : Bool
deriving Repr, DecidableEq

/-- A row of `cart.models.CartItems` (cart line: cart, book, quantity, price). -/
structure CartItems where
  id : Nat
  cartId : Nat
  bookId : Nat
  quantity : Int
  price : Int
deriving Repr, DecidableEq

/-- An account record of the user app's `CustomUser` model (email is the
login identifier; `password` stands for the stored credential, hashing being
delegated to the framework). -/
structure User where
  id : Nat
  email : String
  username : String
  password : String
  is_verified : Bool
  is_superuser : Bool
deriving Repr, DecidableEq

/-- The relational store: one list per table, plus the next primary key each
table would hand out. -/
structure Store where
  users : List User
  books : List Book
  carts : List CartModel
  items : List CartItems
  nextBookId : Nat
  nextCartId : Nat
  nextItemId : Nat
deriving Repr, DecidableEq

/-- The observable part of an HTTP response: status code, `message` field,
optional `error` field, and the serialized cart payload when the handler
returns one. -/
structure Response where
  status : Nat
  message : String
  error : Option String := none
  cart : Option CartModel := none
deriving Repr, DecidableEq

/-- Python truthiness of an optional integer field: `None` and `0` are falsy. -/
def truthyInt : Option Int → Bool
  | none => false
  | some v => v != 0

/-- The filter `CartModel.objects.filter(user=u, is_ordered=False)` uses. -/
def isActiveCartOf (u : Nat) (c : CartModel) : Bool :=
  c.userId == u && !c.is_ordered

/-- `Book.objects.get(id=bid)` resolved over the books table (ids are primary
keys). -/
def findBook (books : List Book) (bid : Nat) : Option Book :=
  books.find? (fun b => b.id == bid)

/-- `save()` on a book row: replace the row whose primary key matches. -/
def updAt (bid : Nat) (f : Book → Book) (books : List Book) : List Book :=
  books.map (fun x => if x.id == bid then f x else x)

/-- `CartItems.objects.filter(cart=cid)`. -/
def cartItemsOf (items : List CartItems) (cid : Nat) : List CartItems :=
  items.filter (fun it => it.cartId == cid)

/-- Django's `Sum` aggregate: `None` when there are no rows, else the sum. -/
def aggSum (f : CartItems → Int) (l : List CartItems) : Option Int :=
  match l with
  | [] => none
  | _ => some ((l.map f).sum)

/-- Python's `x or 0` applied to an aggregate value: `None` coerces to `0`
(and a falsy `0` also yields `0`, which coincides with the value itself). -/
def pyOrZero : Option Int → Int
  | none => 0
  | some v => v

/-- The totals recomputation both cart mutation handlers perform:
`total_quantity` / `total_price` become the aggregated sums over the cart's
lines, with `or 0` null-coercion. -/
def recomputeTotals (items : List CartItems) (c : CartModel) : CartModel :=
  { c with
    total_quantity := pyOrZero (aggSum (fun it => it.quantity) (cartItemsOf items c.id)),
    total_price := pyOrZero (aggSum (fun it => it.price) (cartItemsOf items c.id)) }

/-- `cart.views.CartsViews.get`: fetch the caller's active cart.
`objects.get` with no match raises `DoesNotExist` (the 404 branch); with
several matches it raises `MultipleObjectsReturned`, which falls into the
generic exception handler (500). -/
def CartsViews.get (s : Store) (u : Nat) : Response :=
  match s.carts.filter (isActiveCartOf u) with
  | [] => { status := 404, message := "No active cart found for the user" }
  | [c] => { status := 200, message := "The active cart of the user is Fetched", cart := some c }
  | _ => { status := 500, message := "An unexpected error occurred" }

/-- The JSON body of a cart POST: both fields may be absent. -/
structure AddRequest where
  book_id : Option Int
  quantity : Option Int
deriving Repr, DecidableEq

/-- The "Insufficient stock. Only {stock} available." message. -/
def insufficientMsg (b : Book) : String :=
  "Insufficient stock. Only " ++ toString b.stock ++ " available."

/-- Tail of `CartsViews.post` after `active_cart` has been resolved or
created: `get_or_create` the cart line, merge quantities (re-checking stock
on the merge), set `price = book.price * quantity`, save, then recompute and
save the cart totals.  A freshly created line receives the requested
quantity; the row created by `get_or_create` followed by the field
assignments and `save()` is modelled as inserting the final row. -/
def addItemToCart (s : Store) (book : Book) (qty : Int) (c : CartModel) : Response × Store :=
  match s.items.filter (fun it => it.cartId == c.id && it.bookId == book.id) with
  | [] =>
    let it : CartItems :=
      { id := s.nextItemId, cartId := c.id, bookId := book.id,
        quantity := qty, price := book.price * qty }
    let s2 := { s with items := s.items ++ [it], nextItemId := s.nextItemId + 1 }
    let c' := recomputeTotals s2.items c
    ({ status := 201, message := "New cart created successfully", cart := some c' },
     { s2 with carts := s2.carts.map (fun x => if x.id == c.id then c' else x) })
  | [it0] =>
    let newq := it0.quantity + qty
    if book.stock < newq then
      ({ status := 400, message := insufficientMsg book }, s)
    else
      let it : CartItems := { it0 with quantity := newq, price := book.price * newq }
      let s2 := { s with items := s.items.map (fun j : CartItems => if j.id == it0.id then it else j) }
      let c' := recomputeTotals s2.items c
      ({ status := 200, message := "Cart updated successfully", cart := some c' },
       { s2 with carts := s2.carts.map (fun x : CartModel => if x.id == c.id then c' else x) })
  | _ =>
    ({ status := 500, message := "An error occurred while processing the request." }, s)

/-- `cart.views.CartsViews.post` (add-or-update a cart line): truthiness
validation of `book_id` / `quantity`, book lookup, first stock check,
`get_or_create` of the active cart (committing the new cart row at once),
then `addItemToCart`. -/
def CartsViews.post (s : Store) (u : Nat) (req : AddRequest) : Response × Store :=
  if !truthyInt req.book_id || !truthyInt req.quantity then
    ({ status := 400, message := "book_id and quantity are required." }, s)
  else
    match req.book_id, req.quantity with
    | some bid, some qty =>
      match s.books.find? (fun b => ((b.id : Int)) == bid) with
      | none => ({ status := 404, message := "Book does not exist in the database." }, s)
      | some book =>
        if book.stock < qty then
          ({ status := 400, message := insufficientMsg book }, s)
        else
          match s.carts.filter (isActiveCartOf u) with
          | [] =>
            let c : CartModel :=
              { id := s.nextCartId, userId := u, total_price := 0,
                total_quantity := 0, is_ordered := false }
            addItemToCart
              { s with carts := s.carts ++ [c], nextCartId := s.nextCartId + 1 }
              book qty c
          | [c] => addItemToCart s book qty c
          | _ =>
            ({ status := 500, message := "An error occurred while processing the request." }, s)
    | _, _ =>
      ({ status := 500, message := "An error occurred while processing the request." }, s)

/-- `cart.views.CartsViewsByID.delete` (remove a line by book id): URL `pk`
is truthiness-tested, the active cart and the line are resolved with
`.first()`, the line row is deleted, and the cart totals are recomputed. -/
def CartsViewsByID.delete (s : Store) (u : Nat) (pk : Nat) : Response × Store :=
  if pk == 0 then
    ({ status := 400, message := "Item ID is required." }, s)
  else
    match (s.carts.filter (isActiveCartOf u)).head? with
    | none => ({ status := 404, message := "No active cart found." }, s)
    | some c =>
      match (s.items.filter (fun it => it.bookId == pk && it.cartId == c.id)).head? with
      | none => ({ status := 404, message := "No such item found in the active cart." }, s)
      | some it =>
        let s2 := { s with items := s.items.filter (fun j => j.id != it.id) }
        let c' := recomputeTotals s2.items c
        ({ status := 204, message := "Item deleted successfully" },
         { s2 with carts := s2.carts.map (fun x => if x.id == c.id then c' else x) })

/-- Result of the single check-and-decrement loop in `OrderViews.post`:
either every line passed (carrying the final books table), or a line failed
the stock check (carrying the offending book's name and the books table *as
already mutated by the earlier iterations*, each `save()` having committed),
or a line's book row was missing (the generic 500 path). -/
inductive LoopResult where
  | ok (books : List Book)
  | insufficient (bookName : String) (books : List Book)
  | dbError (books : List Book)
deriving Repr, DecidableEq

/-- The book list a `LoopResult` left behind. -/
def LoopResult.books : LoopResult → List Book
  | .ok bs => bs
  | .insufficient _ bs => bs
  | .dbError bs => bs

/-- The `for item in cart_items:` loop of `OrderViews.post`: per line, check
`item.quantity > item.book.stock` and on failure return at once; otherwise
decrement the book's stock and save before moving to the next line. -/
def orderItemsLoop : List CartItems → List Book → LoopResult
  | [], books => .ok books
  | it :: rest, books =>
    match books.find? (fun b => b.id == it.bookId) with
    | none => .dbError books
    | some b =>
      if b.stock < it.quantity then .insufficient b.name books
      else orderItemsLoop rest (updAt b.id (fun x => { x with stock := x.stock - it.quantity }) books)

/-- `cart.views.OrderViews.post` (place an order): resolve the active cart
with `.first()`, reject an empty cart, run the check-and-decrement loop, and
on success mark the cart ordered. -/
def OrderViews.post (s : Store) (u : Nat) : Response × Store :=
  match (s.carts.filter (isActiveCartOf u)).head? with
  | none => ({ status := 400, message := "No active cart to order." }, s)
  | some c =>
    let cart_items := s.items.filter (fun it => it.cartId == c.id)
    if cart_items.isEmpty then
      ({ status := 400, message := "The cart is empty." }, s)
    else
      match orderItemsLoop cart_items s.books with
      | .insufficient nm books' =>
        ({ status := 400, message := "Insufficient stock for the book " ++ nm ++ "." },
         { s with books := books' })
      | .dbError books' =>
        ({ status := 500, message := "An error occurred during the ordering process." },
         { s with books := books' })
      | .ok books' =>
        ({ status := 200, message := "The order placed" },
         { s with books := books',
                  carts := s.carts.map (fun x => if x.id == c.id then { x with is_ordered := true } else x) })

/-- The `for item in cart_items:` loop of `OrderViewsByID.delete`: add each
line's quantity back to its book's stock, saving per book; a missing book
row aborts with the books mutated so far (`false` flags the 500 path). -/
def cancelLoop : List CartItems → List Book → Bool × List Book
  | [], books => (true, books)
  | it :: rest, books =>
    match books.find? (fun b => b.id == it.bookId) with
    | none => (false, books)
    | some b =>
      cancelLoop rest (updAt b.id (fun x => { x with stock := x.stock + it.quantity }) books)

/-- `cart.views.OrderViewsByID.delete` (cancel an order): the queryset
`filter(user=u, is_ordered=True, id=pk)` must be non-empty (else 404); its
lines are resolved through the cart id, each book's stock is restored, and
the queryset delete removes the cart and, by FK cascade, its lines. -/
def OrderViewsByID.delete (s : Store) (u : Nat) (pk : Nat) : Response × Store :=
  let qs := s.carts.filter (fun c => c.userId == u && c.is_ordered && c.id == pk)
  if qs.isEmpty then
    ({ status := 404, message := "No order found to cancel." }, s)
  else
    match cancelLoop (s.items.filter (fun it => it.cartId == pk)) s.books with
    | (false, books') =>
      ({ status := 500, message := "An error occurred while cancelling the order." },
       { s with books := books' })
    | (true, books') =>
      ({ status := 200, message := "Order cancelled successfully." },
       { s with books := books',
                carts := s.carts.filter (fun c => !(c.userId == u && c.is_ordered && c.id == pk)),
                items := s.items.filter (fun it => it.cartId != pk) })

/-- The JSON body of a catalog create/update request (serializer input
fields of `BookSerializer`; `user` is read-only and never client-settable). -/
structure BookRequest where
  name : Option String
  author : Option String
  description : Option String
  price : Option Int
  stock : Option Int
deriving Repr, DecidableEq

/-- `BookSerializer.is_valid` over the model constraints of `book.models.Book`:
`name` (required, non-blank, unique — on update the instance itself is
excluded from the uniqueness check), `author` (required, non-blank),
`price` and `stock` (required `PositiveIntegerField`s, hence `0 ≤`);
`description` is optional. -/
def bookDataValid (books : List Book) (excludeId : Option Nat) (req : BookRequest) : Bool :=
  match req.name, req.author, req.price, req.stock with
  | some n, some a, some p, some st =>
    !(n == "") && !(a == "") && decide (0 ≤ p) && decide (0 ≤ st) &&
      books.all (fun b =>
        !(b.name == n) ||
          (match excludeId with
           | some i => b.id == i
           | none => false))
  | _, _, _, _ => false

/-- `book.views.BookViewset.create`: non-superusers are rejected with 403
before anything else; then serializer validation (400 on failure) and
`serializer.save(user=request.user)` appending the new book row. -/
def BookViewset.create (s : Store) (caller : User) (req : BookRequest) : Response × Store :=
  if !caller.is_superuser then
    ({ status := 403, message := "You do not have permission to perform this action." }, s)
  else
    match req.name, req.author, req.price, req.stock with
    | some n, some a, some p, some st =>
      if bookDataValid s.books none req then
        let b : Book :=
          { id := s.nextBookId, name := n, author := a, description := req.description,
            price := p, stock := st, userId := caller.id }
        ({ status := 201, message := "Book created successfully" },
         { s with books := s.books ++ [b], nextBookId := s.nextBookId + 1 })
      else ({ status := 400, message := "Invalid data" }, s)
    | _, _, _, _ => ({ status := 400, message := "Invalid data" }, s)

/-- `book.views.BookViewset.update`: 403 for non-superusers, 404 if the book
is absent, 400 on invalid data, else the row's serializer fields are
replaced (the owning user is read-only and kept). -/
def BookViewset.update (s : Store) (caller : User) (pk : Nat) (req : BookRequest) : Response × Store :=
  if !caller.is_superuser then
    ({ status := 403, message := "You do not have permission to perform this action." }, s)
  else
    match findBook s.books pk with
    | none => ({ status := 404, message := "Book not found." }, s)
    | some b0 =>
      match req.name, req.author, req.price, req.stock with
      | some n, some a, some p, some st =>
        if bookDataValid s.books (some pk) req then
          let b : Book :=
            { b0 with name := n, author := a, description := req.description,
                      price := p, stock := st }
          ({ status := 200, message := "Book updated successfully" },
           { s with books := s.books.map (fun x => if x.id == pk then b else x) })
        else ({ status := 400, message := "Invalid data" }, s)
      | _, _, _, _ => ({ status := 400, message := "Invalid data" }, s)

/-- `book.views.BookViewset.destroy`: 403 for non-superusers, 404 if absent,
else the row is deleted and 204 returned. -/
def BookViewset.destroy (s : Store) (caller : User) (pk : Nat) : Response × Store :=
  if !caller.is_superuser then
    ({ status := 403, message := "You do not have permission to perform this action." }, s)
  else
    match findBook s.books pk with
    | none => ({ status := 404, message := "Book not found." }, s)
    | some _ =>
      ({ status := 204, message := "" },
       { s with books := s.books.filter (fun b => b.id != pk) })

/-- The JSON body of a login request. -/
structure LoginRequest where
  email : Option String
  password : Option String
deriving Repr, DecidableEq

/-- Modelled from the spec: the authentication backend over the user app's
`CustomUser` model (the model itself is not under src/, only its callers).
Per §4.4 the login credential check resolves the account by unique email
and compares the password, succeeding exactly on a full match and yielding
nothing on any mismatch — unknown email and wrong password alike. -/
def authenticate (users : List User) (email pw : String) : Option User :=
  match users.find? (fun u => u.email == email) with
  | none => none
  | some u => if u.password == pw then some u else none

/-- The serializer-failure response of `LoginUser.post` (the concrete
`serializer.errors` detail varies with the missing field; it is collapsed
here, as no claim concerns malformed login requests). -/
def loginSerializerErrorResp : Response :=
  { status := 400, message := "Unexpected error occurred", error := some "serializer errors" }

/-- `user.views.LoginUser.post`: `UserLoginSerializer` requires both fields
present and non-empty (its `validate` rejects falsy values; `EmailField`
format checking is framework-delegated and not modelled); then
`authenticate` decides between the success response (tokens elided) and the
single, constant credential-mismatch response. -/
def LoginUser.post (users : List User) (req : LoginRequest) : Response :=
  match req.email, req.password with
  | some e, some p =>
    if e == "" || p == "" then loginSerializerErrorResp
    else
      match authenticate users e p with
      | some _ => { status := 200, message := "Login successful!" }
      | none => { status := 400, message := "Login failed", error := some "Invalid email or password" }
  | _, _ => loginSerializerErrorResp

/-- The four cart/order mutations, as one request alphabet for stating
store-level invariants. -/
inductive Op where
  | addOrUpdate (u : Nat) (req : AddRequest)
  | removeItem (u : Nat) (pk : Nat)
  | placeOrder (u : Nat)
  | cancelOrder (u : Nat) (pk : Nat)
deriving Repr, DecidableEq

/-- Dispatch an `Op` to its handler. -/
def applyOp (s : Store) : Op → Response × Store
  | .addOrUpdate u req => CartsViews.post s u req
  | .removeItem u pk => CartsViewsByID.delete s u pk
  | .placeOrder u => OrderViews.post s u
  | .cancelOrder u pk => OrderViewsByID.delete s u pk

/-! ### General lemmas about the embedding's building blocks -/

/-- The aggregate-then-null-coerce composite is the plain sum. -/
theorem pyOrZero_aggSum (f : CartItems → Int) (l : List CartItems) :
    pyOrZero (aggSum f l) = (l.map f).sum := by
  cases l <;> simp [aggSum, pyOrZero]

/-- `find?` only depends on the pointwise behaviour of its predicate. -/
theorem find?_pred_congr {α : Type} (p q : α → Bool) (h : ∀ a, p a = q a) :
    ∀ l : List α, l.find? p = l.find? q
  | [] => rfl
  | a :: t => by
    by_cases ha : p a = true
    · rw [List.find?_cons_of_pos _ ha, List.find?_cons_of_pos _ ((h a) ▸ ha)]
    · rw [List.find?_cons_of_neg _ ha, List.find?_cons_of_neg _ ((h a) ▸ ha),
        find?_pred_congr p q h t]

/-- A per-primary-key row update keeps the id column unchanged. -/
theorem updAt_map_id (bid : Nat) (f : Book → Book) (hf : ∀ x, (f x).id = x.id) :
    ∀ books : List Book, (updAt bid f books).map Book.id = books.map Book.id
  | [] => rfl
  | b :: t => by
    simp only [updAt, List.map_cons] at *
    rw [show ((t.map fun x => if x.id == bid then f x else x).map Book.id) = t.map Book.id from
      updAt_map_id bid f hf t]
    by_cases h : b.id == bid <;> simp [h, hf]

/-- Looking a book up after a per-id update: the updated row is seen through
`f`, every other id is untouched. -/
theorem findBook_updAt (bid j : Nat) (f : Book → Book) (hf : ∀ x, (f x).id = x.id) :
    ∀ books : List Book,
      findBook (updAt bid f books) j =
        if j = bid then (findBook books j).map f else findBook books j
  | [] => by by_cases h : j = bid <;> simp [h, findBook, updAt]
  | b :: t => by
    have tail := findBook_updAt bid j f hf t
    by_cases hb : b.id == bid
    · have hbid : b.id = bid := by simpa using hb
      by_cases hj : b.id == j
      · have : b.id = j := by simpa using hj
        by_cases hjb : j = bid
        · simp [findBook, updAt, List.find?_cons, hf, hb, hj, this, hjb]
        · exact absurd (this ▸ hbid) hjb
      · have hfj : ((f b).id == j) = false := by
          simpa [hf] using hj
        simp only [findBook, updAt, List.map_cons, hb, if_true]
        rw [List.find?_cons_of_neg _ (by simp [hfj]), List.find?_cons_of_neg _ (by simpa using hj)]
        exact tail
    · have hbid : ¬ b.id = bid := by simpa using hb
      by_cases hj : b.id == j
      · have hbj : b.id = j := by simpa using hj
        have hjb : ¬ j = bid := fun h => hbid (hbj.symm ▸ h)
        simp only [findBook, updAt, List.map_cons, hb, if_false]
        rw [List.find?_cons_of_pos _ (by simpa using hj), List.find?_cons_of_pos _ (by simpa using hj)]
        simp [hjb]
      · simp only [findBook, updAt, List.map_cons, hb, if_false]
        rw [List.find?_cons_of_neg _ (by simpa using hj), List.find?_cons_of_neg _ (by simpa using hj)]
        exact tail

/-- Under per-cart uniqueness of lines' books, `find?` by a line's book id
returns that very line. -/
theorem find?_bookId_self :
    ∀ (l : List CartItems), (l.map CartItems.bookId).Nodup →
      ∀ it ∈ l, l.find? (fun x => x.bookId == it.bookId) = some it
  | [], _, it, hit => absurd hit (List.not_mem_nil it)
  | j :: t, hnd, it, hit => by
    have hnd' : (t.map CartItems.bookId).Nodup := (List.nodup_cons.mp hnd).2
    have hjt : j.bookId ∉ t.map CartItems.bookId := (List.nodup_cons.mp hnd).1
    rcases List.mem_cons.mp hit with h | h
    · subst h
      exact List.find?_cons_of_pos _ (by simp)
    · have hne : (j.bookId == it.bookId) = false := by
        apply beq_eq_false_iff_ne.mpr
        intro hEq
        exact hjt (hEq ▸ List.mem_map_of_mem CartItems.bookId h)
      rw [List.find?_cons_of_neg _ (by simp [hne])]
      exact find?_bookId_self t hnd' it h

/-- Two successive filters commute. -/
theorem filter_comm {α : Type} (p q : α → Bool) (l : List α) :
    (l.filter p).filter q = (l.filter q).filter p := by
  rw [List.filter_filter, List.filter_filter]
  exact List.filter_congr (fun a _ => Bool.and_comm (q a) (p a))

/-- If a filter isolates the single row `c` and a map rewrites `c` to `c'`
(leaving everything else alone), the filter afterwards isolates `c'`. -/
theorem filter_map_single {α : Type} [DecidableEq α] :
    ∀ (l : List α) (p : α → Bool) (f : α → α) (c c' : α),
      l.filter p = [c] → (∀ x ∈ l, f x = if x = c then c' else x) → p c' = true →
      (l.map f).filter p = [c']
  | [], p, f, c, c', hl, _, _ => by simp at hl
  | a :: t, p, f, c, c', hl, hf, hc' => by
    have hpc : p c = true := by
      have : c ∈ (a :: t).filter p := by rw [hl]; exact List.mem_singleton.mpr rfl
      exact (List.mem_filter.mp this).2
    by_cases hpa : p a = true
    · rw [List.filter_cons_of_pos hpa] at hl
      have hac : a = c := (List.cons_eq_cons.mp hl).1
      have htnil : t.filter p = [] := (List.cons_eq_cons.mp hl).2
      have hfa : f a = c' := by
        rw [hf a (List.mem_cons_self a t), if_pos hac]
      have hmap : (t.map f).filter p = [] := by
        rw [List.filter_eq_nil_iff]
        intro x hx
        rcases List.mem_map.mp hx with ⟨y, hy, hyx⟩
        have hpy : ¬ p y = true := by
          have := List.filter_eq_nil_iff.mp htnil y hy
          simpa using this
        have hyc : y ≠ c := fun hEq => hpy (hEq ▸ hpc)
        rw [hf y (List.mem_cons_of_mem a hy), if_neg hyc] at hyx
        subst hyx
        simpa using hpy
      rw [List.map_cons, List.filter_cons_of_pos (hfa ▸ hc'), hfa, hmap]
    · rw [List.filter_cons_of_neg hpa] at hl
      have hac : a ≠ c := fun hEq => hpa (hEq ▸ hpc)
      have hfa : f a = a := by rw [hf a (List.mem_cons_self a t), if_neg hac]
      rw [List.map_cons, hfa, List.filter_cons_of_neg hpa]
      exact filter_map_single t p f c c' hl (fun x hx => hf x (List.mem_cons_of_mem a hx)) hc'

/-! ### The check-and-decrement loop of `place_order` -/

/-- Whatever the loop's outcome, with unique book ids it never drives a
stock negative: each decrement is guarded by its own stock check. -/
theorem orderItemsLoop_nonneg :
    ∀ (items : List CartItems) (books : List Book),
      (books.map Book.id).Nodup → (∀ b ∈ books, 0 ≤ b.stock) →
      ∀ b ∈ (orderItemsLoop items books).books, 0 ≤ b.stock
  | [], books, _, hb, b, hmem => hb b hmem
  | it :: rest, books, hnd, hb, b, hmem => by
    rw [orderItemsLoop] at hmem
    rcases hfind : books.find? (fun x => x.id == it.bookId) with _ | bk
    · simp only [hfind, LoopResult.books] at hmem
      exact hb b hmem
    · simp only [hfind] at hmem
      by_cases hst : bk.stock < it.quantity
      · rw [if_pos hst] at hmem
        simp only [LoopResult.books] at hmem
        exact hb b hmem
      · rw [if_neg hst] at hmem
        have hbkmem : bk ∈ books := List.mem_of_find?_eq_some hfind
        refine orderItemsLoop_nonneg rest _ ?_ ?_ b hmem
        · exact (updAt_map_id bk.id (fun x => { x with stock := x.stock - it.quantity })
            (fun x => rfl) books) ▸ hnd
        · intro y hy
          rcases List.mem_map.mp hy with ⟨x, hx, hxy⟩
          by_cases hxid : (x.id == bk.id) = true
          · have hxbk : x = bk :=
              List.inj_on_of_nodup_map hnd hx hbkmem (by simpa using hxid)
            rw [if_pos hxid] at hxy
            subst hxbk
            rw [← hxy]
            simpa using Int.sub_nonneg.mpr (not_lt.mp hst)
          · rw [if_neg hxid] at hxy
            exact hxy ▸ hb x hx

/-- When every line's book exists with enough stock and the lines name
pairwise distinct books, the loop succeeds; each line's book ends with its
stock decremented by exactly that line's quantity and every other book is
untouched. -/
theorem orderItemsLoop_ok_effect :
    ∀ (items : List CartItems) (books : List Book),
      (items.map CartItems.bookId).Nodup →
      (∀ it ∈ items, ∃ b, findBook books it.bookId = some b ∧ it.quantity ≤ b.stock) →
      ∃ books', orderItemsLoop items books = .ok books' ∧
        (∀ it ∈ items, findBook books' it.bookId =
          (findBook books it.bookId).map (fun b => { b with stock := b.stock - it.quantity })) ∧
        (∀ j : Nat, (∀ it ∈ items, it.bookId ≠ j) → findBook books' j = findBook books j)
  | [], books, _, _ => ⟨books, rfl, by simp, fun _ _ => rfl⟩
  | it :: rest, books, hnd, hok => by
    obtain ⟨b, hfind, hstock⟩ := hok it (List.mem_cons_self it rest)
    have hnd' : (rest.map CartItems.bookId).Nodup := (List.nodup_cons.mp hnd).2
    have hhead : it.bookId ∉ rest.map CartItems.bookId := (List.nodup_cons.mp hnd).1
    have hguard : ¬ b.stock < it.quantity := not_lt.mpr hstock
    have hbooks2 : ∀ j : Nat,
        findBook (updAt b.id (fun x => { x with stock := x.stock - it.quantity }) books) j =
          if j = it.bookId then
            (findBook books j).map (fun x => { x with stock := x.stock - it.quantity })
          else findBook books j := by
      intro j
      rw [findBook_updAt b.id j (fun x => { x with stock := x.stock - it.quantity })
        (fun x => rfl) books]
      have hbid : b.id = it.bookId := by simpa using List.find?_some hfind
      rw [hbid]
    have hok2 : ∀ x ∈ rest,
        ∃ bb, findBook (updAt b.id (fun x => { x with stock := x.stock - it.quantity }) books) x.bookId
          = some bb ∧ x.quantity ≤ bb.stock := by
      intro x hx
      obtain ⟨bb, hf, hs⟩ := hok x (List.mem_cons_of_mem it hx)
      refine ⟨bb, ?_, hs⟩
      have hne : ¬ x.bookId = it.bookId := by
        intro hEq
        exact hhead (hEq ▸ List.mem_map_of_mem CartItems.bookId hx)
      rw [hbooks2 x.bookId, if_neg hne]
      exact hf
    obtain ⟨books', hloop, hA, hB⟩ :=
      orderItemsLoop_ok_effect rest
        (updAt b.id (fun x => { x with stock := x.stock - it.quantity }) books) hnd' hok2
    refine ⟨books', ?_, ?_, ?_⟩
    · have hfind' : books.find? (fun x => x.id == it.bookId) = some b := hfind
      rw [orderItemsLoop]
      simp only [hfind']
      rw [if_neg hguard]
      exact hloop
    · intro x hx
      rcases List.mem_cons.mp hx with h | h
      · subst h
        have hnotin : ∀ y ∈ rest, y.bookId ≠ x.bookId := by
          intro y hy hEq
          exact hhead (hEq ▸ List.mem_map_of_mem CartItems.bookId hy)
        rw [hB x.bookId hnotin, hbooks2 x.bookId, if_pos rfl]
      · have hne : ¬ x.bookId = it.bookId := by
          intro hEq
          exact hhead (hEq ▸ List.mem_map_of_mem CartItems.bookId h)
        rw [hA x h, hbooks2 x.bookId, if_neg hne]
    · intro j hj
      have hne : ¬ j = it.bookId := by
        intro hEq
        exact hj it (List.mem_cons_self it rest) hEq.symm
      have hrest : ∀ y ∈ rest, y.bookId ≠ j := fun y hy => hj y (List.mem_cons_of_mem it hy)
      rw [hB j hrest, hbooks2 j, if_neg hne]

/-! ### The stock-restoring loop of `cancel_order` -/

/-- With non-negative line quantities, restoring stock keeps it
non-negative (on the success and on the aborted path alike). -/
theorem cancelLoop_nonneg :
    ∀ (items : List CartItems) (books : List Book),
      (∀ it ∈ items, 0 ≤ it.quantity) → (∀ b ∈ books, 0 ≤ b.stock) →
      ∀ b ∈ (cancelLoop items books).2, 0 ≤ b.stock
  | [], books, _, hb, b, hmem => hb b hmem
  | it :: rest, books, hq, hb, b, hmem => by
    rw [cancelLoop] at hmem
    rcases hfind : books.find? (fun x => x.id == it.bookId) with _ | bk
    · simp only [hfind] at hmem
      exact hb b hmem
    · simp only [hfind] at hmem
      refine cancelLoop_nonneg rest _ (fun x hx => hq x (List.mem_cons_of_mem it hx)) ?_ b hmem
      intro y hy
      rcases List.mem_map.mp hy with ⟨x, hx, hxy⟩
      by_cases hxid : (x.id == bk.id) = true
      · rw [if_pos hxid] at hxy
        rw [← hxy]
        have h1 : 0 ≤ x.stock := hb x hx
        have h2 : 0 ≤ it.quantity := hq it (List.mem_cons_self it rest)
        simpa using Int.add_nonneg h1 h2
      · rw [if_neg hxid] at hxy
        exact hxy ▸ hb x hx

/-- When every line's book exists and the lines name pairwise distinct
books, the cancel loop succeeds; each line's book gains back exactly that
line's quantity and every other book is untouched. -/
theorem cancelLoop_effect :
    ∀ (items : List CartItems) (books : List Book),
      (items.map CartItems.bookId).Nodup →
      (∀ it ∈ items, ∃ b, findBook books it.bookId = some b) →
      ∃ books', cancelLoop items books = (true, books') ∧
        (∀ it ∈ items, findBook books' it.bookId =
          (findBook books it.bookId).map (fun b => { b with stock := b.stock + it.quantity })) ∧
        (∀ j : Nat, (∀ it ∈ items, it.bookId ≠ j) → findBook books' j = findBook books j)
  | [], books, _, _ => ⟨books, rfl, by simp, fun _ _ => rfl⟩
  | it :: rest, books, hnd, hok => by
    obtain ⟨b, hfind⟩ := hok it (List.mem_cons_self it rest)
    have hnd' : (rest.map CartItems.bookId).Nodup := (List.nodup_cons.mp hnd).2
    have hhead : it.bookId ∉ rest.map CartItems.bookId := (List.nodup_cons.mp hnd).1
    have hbooks2 : ∀ j : Nat,
        findBook (updAt b.id (fun x => { x with stock := x.stock + it.quantity }) books) j =
          if j = it.bookId then
            (findBook books j).map (fun x => { x with stock := x.stock + it.quantity })
          else findBook books j := by
      intro j
      rw [findBook_updAt b.id j (fun x => { x with stock := x.stock + it.quantity })
        (fun x => rfl) books]
      have hbid : b.id = it.bookId := by simpa using List.find?_some hfind
      rw [hbid]
    have hok2 : ∀ x ∈ rest,
        ∃ bb, findBook (updAt b.id (fun x => { x with stock := x.stock + it.quantity }) books) x.bookId
          = some bb := by
      intro x hx
      obtain ⟨bb, hf⟩ := hok x (List.mem_cons_of_mem it hx)
      refine ⟨bb, ?_⟩
      have hne : ¬ x.bookId = it.bookId := by
        intro hEq
        exact hhead (hEq ▸ List.mem_map_of_mem CartItems.bookId hx)
      rw [hbooks2 x.bookId, if_neg hne]
      exact hf
    obtain ⟨books', hloop, hA, hB⟩ :=
      cancelLoop_effect rest
        (updAt b.id (fun x => { x with stock := x.stock + it.quantity }) books) hnd' hok2
    refine ⟨books', ?_, ?_, ?_⟩
    · have hfind' : books.find? (fun x => x.id == it.bookId) = some b := hfind
      rw [cancelLoop]
      simp only [hfind']
      exact hloop
    · intro x hx
      rcases List.mem_cons.mp hx with h | h
      · subst h
        have hnotin : ∀ y ∈ rest, y.bookId ≠ x.bookId := by
          intro y hy hEq
          exact hhead (hEq ▸ List.mem_map_of_mem CartItems.bookId hy)
        rw [hB x.bookId hnotin, hbooks2 x.bookId, if_pos rfl]
      · have hne : ¬ x.bookId = it.bookId := by
          intro hEq
          exact hhead (hEq ▸ List.mem_map_of_mem CartItems.bookId h)
        rw [hA x h, hbooks2 x.bookId, if_neg hne]
    · intro j hj
      have hne : ¬ j = it.bookId := by
        intro hEq
        exact hj it (List.mem_cons_self it rest) hEq.symm
      have hrest : ∀ y ∈ rest, y.bookId ≠ j := fun y hy => hj y (List.mem_cons_of_mem it hy)
      rw [hB j hrest, hbooks2 j, if_neg hne]

/-! ### Cart mutations never touch the books table -/

/-- `addItemToCart` returns the books table unchanged in every branch. -/
theorem addItemToCart_books (s : Store) (book : Book) (qty : Int) (c : CartModel) :
    (addItemToCart s book qty c).2.books = s.books := by
  rcases hf : s.items.filter (fun it => it.cartId == c.id && it.bookId == book.id) with
    _ | ⟨it0, _ | ⟨it1, rest⟩⟩
  · simp only [addItemToCart, hf]
  · simp only [addItemToCart, hf]
    split
    · rfl
    · rfl
  · simp only [addItemToCart, hf]

/-- `CartsViews.post` returns the books table unchanged in every branch. -/
theorem CartsViews.post_books (s : Store) (u : Nat) (req : AddRequest) :
    (CartsViews.post s u req).2.books = s.books := by
  unfold CartsViews.post
  split
  · rfl
  · split
    · split
      · rfl
      · split
        · rfl
        · split
          · simp only [addItemToCart_books]
          · simp only [addItemToCart_books]
          · rfl
    · rfl

/-- `CartsViewsByID.delete` returns the books table unchanged in every branch. -/
theorem CartsViewsByID.delete_books (s : Store) (u : Nat) (pk : Nat) :
    (CartsViewsByID.delete s u pk).2.books = s.books := by
  unfold CartsViewsByID.delete
  split
  · rfl
  · split
    · rfl
    · split
      · rfl
      · rfl

/-! ### Claim theorems -/

/-- C4: every book's stock stays non-negative across each of the four cart
and order operations, from any store whose book ids are primary keys, whose
stocks are non-negative and whose line quantities are non-negative (the
`PositiveIntegerField` column types); moreover `add_or_update` and
`remove_item` leave the books table untouched, `place_order` decrements a
stock only behind its own sufficient-stock check, and `cancel_order` only
adds quantities back. -/
theorem applyOp_stock_nonneg (s : Store) (op : Op)
    (hids : (s.books.map Book.id).Nodup)
    (hstock : ∀ b ∈ s.books, 0 ≤ b.stock)
    (hqty : ∀ it ∈ s.items, 0 ≤ it.quantity) :
    (∀ b ∈ (applyOp s op).2.books, 0 ≤ b.stock) ∧
    (∀ u req, op = Op.addOrUpdate u req → (applyOp s op).2.books = s.books) ∧
    (∀ u pk, op = Op.removeItem u pk → (applyOp s op).2.books = s.books) := by
  cases op with
  | addOrUpdate u req =>
    refine ⟨?_, ?_, ?_⟩
    · intro b hb
      rw [applyOp, CartsViews.post_books] at hb
      exact hstock b hb
    · intro u' req' _
      rw [applyOp, CartsViews.post_books]
    · intro u' pk h
      simp at h
  | removeItem u pk =>
    refine ⟨?_, ?_, ?_⟩
    · intro b hb
      rw [applyOp, CartsViewsByID.delete_books] at hb
      exact hstock b hb
    · intro u' req' h
      simp at h
    · intro u' pk' _
      rw [applyOp, CartsViewsByID.delete_books]
  | placeOrder u =>
    refine ⟨?_, fun u' req' h => by simp at h, fun u' pk' h => by simp at h⟩
    intro b hb
    rw [applyOp] at hb
    unfold OrderViews.post at hb
    rcases hcart : (s.carts.filter (isActiveCartOf u)).head? with _ | c
    · rw [hcart] at hb
      exact hstock b hb
    · simp only [hcart] at hb
      by_cases hemp : (s.items.filter (fun it => it.cartId == c.id)).isEmpty = true
      · rw [if_pos hemp] at hb
        exact hstock b hb
      · rw [if_neg hemp] at hb
        have hloop := orderItemsLoop_nonneg (s.items.filter (fun it => it.cartId == c.id))
          s.books hids hstock
        rcases hres : orderItemsLoop (s.items.filter (fun it => it.cartId == c.id)) s.books with
          books' | ⟨nm, books'⟩ | books'
        all_goals
          simp only [hres, LoopResult.books] at hloop hb
          exact hloop b hb
  | cancelOrder u pk =>
    refine ⟨?_, fun u' req' h => by simp at h, fun u' pk' h => by simp at h⟩
    intro b hb
    rw [applyOp] at hb
    unfold OrderViewsByID.delete at hb
    by_cases hemp :
        (s.carts.filter (fun c => c.userId == u && c.is_ordered && c.id == pk)).isEmpty = true
    · rw [if_pos hemp] at hb
      exact hstock b hb
    · rw [if_neg hemp] at hb
      have hloop := cancelLoop_nonneg (s.items.filter (fun it => it.cartId == pk)) s.books
        (fun it hit => hqty it (List.mem_of_mem_filter hit)) hstock
      rcases hres : cancelLoop (s.items.filter (fun it => it.cartId == pk)) s.books with ⟨ok, books'⟩
      simp only [hres] at hloop hb
      cases ok
      · exact hloop b hb
      · exact hloop b hb

/-- C4 witness: a concrete well-formed store and a concrete cancel
operation satisfy the hypotheses, and the conclusion holds there. -/
theorem applyOp_stock_nonneg_witness :
    (let s : Store :=
      { users := [], books := [{ id := 1, name := "A", author := "x", description := none,
                                 price := 100, stock := 0, userId := 9 }],
        carts := [{ id := 7, userId := 1, total_price := 200, total_quantity := 2,
                    is_ordered := true }],
        items := [{ id := 1, cartId := 7, bookId := 1, quantity := 2, price := 200 }],
        nextBookId := 2, nextCartId := 8, nextItemId := 2 }
     (∀ b ∈ (applyOp s (Op.cancelOrder 1 7)).2.books, 0 ≤ b.stock) ∧
     (∀ u req, Op.cancelOrder 1 7 = Op.addOrUpdate u req →
        (applyOp s (Op.cancelOrder 1 7)).2.books = s.books) ∧
     (∀ u pk, Op.cancelOrder 1 7 = Op.removeItem u pk →
        (applyOp s (Op.cancelOrder 1 7)).2.books = s.books)) :=
  applyOp_stock_nonneg _ (Op.cancelOrder 1 7) (by decide) (by decide) (by decide)

/-- C1: a concrete two-line cart on which `place_order`'s stock check fails
on the second line: the response is the 400 naming the second book, yet the
first line's book has already had its stock decremented (10 to 9) by the
time the handler returns — the check and the mutation live in one
interleaved loop, not in two separate passes. -/
theorem placeOrder_decrements_before_failing_check :
    (let s : Store :=
      { users := [],
        books := [{ id := 1, name := "A", author := "x", description := none,
                    price := 100, stock := 10, userId := 9 },
                  { id := 2, name := "B", author := "x", description := none,
                    price := 50, stock := 3, userId := 9 }],
        carts := [{ id := 7, userId := 1, total_price := 350, total_quantity := 6,
                    is_ordered := false }],
        items := [{ id := 1, cartId := 7, bookId := 1, quantity := 1, price := 100 },
                  { id := 2, cartId := 7, bookId := 2, quantity := 5, price := 250 }],
        nextBookId := 3, nextCartId := 8, nextItemId := 3 }
     (OrderViews.post s 1).1.status = 400 ∧
     (OrderViews.post s 1).1.message = "Insufficient stock for the book B." ∧
     findBook (OrderViews.post s 1).2.books 1 =
       some { id := 1, name := "A", author := "x", description := none,
              price := 100, stock := 9, userId := 9 } ∧
     (OrderViews.post s 1).2.carts =
       [{ id := 7, userId := 1, total_price := 350, total_quantity := 6, is_ordered := false }]) :=
  by decide

/-- C3: a request with `quantity = -1` against an existing book sails past
the truthiness validation (`if not book_id or not quantity:` only rejects
`None` and `0`), creates a cart and a line with quantity `-1` and price
`-100`, and answers 201 — not the claimed 400-with-no-mutation. -/
theorem addToCart_negative_quantity_accepted :
    (let s : Store :=
      { users := [],
        books := [{ id := 1, name := "A", author := "x", description := none,
                    price := 100, stock := 10, userId := 9 }],
        carts := [], items := [], nextBookId := 2, nextCartId := 8, nextItemId := 3 }
     (CartsViews.post s 1 { book_id := some 1, quantity := some (-1) }).1.status = 201 ∧
     (CartsViews.post s 1 { book_id := some 1, quantity := some (-1) }).2.items =
       [{ id := 3, cartId := 8, bookId := 1, quantity := -1, price := -100 }] ∧
     (CartsViews.post s 1 { book_id := some 1, quantity := some (-1) }).2.carts =
       [{ id := 8, userId := 1, total_price := -100, total_quantity := -1,
          is_ordered := false }]) :=
  by decide

/-- Decidable form of "every line's book exists and has enough stock". -/
def stockCheckOk (books : List Book) (its : List CartItems) : Bool :=
  its.all (fun it =>
    match findBook books it.bookId with
    | some b => decide (it.quantity ≤ b.stock)
    | none => false)

/-- Unpacking `stockCheckOk` into its existential reading. -/
theorem stockCheckOk_spec (books : List Book) (its : List CartItems)
    (h : stockCheckOk books its = true) :
    ∀ it ∈ its, ∃ b, findBook books it.bookId = some b ∧ it.quantity ≤ b.stock := by
  intro it hit
  have hall := List.all_eq_true.mp h it hit
  rcases hf : findBook books it.bookId with _ | b
  · simp only [hf] at hall
    simp at hall
  · simp only [hf] at hall
    exact ⟨b, rfl, of_decide_eq_true hall⟩

/-- Decidable form of "every line's book exists". -/
def booksExistFor (books : List Book) (its : List CartItems) : Bool :=
  its.all (fun it => (findBook books it.bookId).isSome)

/-- Unpacking `booksExistFor` into its existential reading. -/
theorem booksExistFor_spec (books : List Book) (its : List CartItems)
    (h : booksExistFor books its = true) :
    ∀ it ∈ its, ∃ b, findBook books it.bookId = some b := by
  intro it hit
  have hall := List.all_eq_true.mp h it hit
  rcases hf : findBook books it.bookId with _ | b
  · simp only [hf, Option.isSome] at hall
    simp at hall
  · exact ⟨b, rfl⟩

/-- C2: placing an order from a non-empty active cart whose lines all fit
their books' stock (lines naming pairwise distinct existing books, as the
per-(cart, book) `get_or_create` uniqueness guarantees) succeeds with 200,
decrements each line's book's stock by exactly that line's quantity, and
marks the cart ordered. -/
theorem place_order_valid_succeeds (s : Store) (u : Nat) (c : CartModel)
    (hc : (s.carts.filter (isActiveCartOf u)).head? = some c)
    (hne : s.items.filter (fun it => it.cartId == c.id) ≠ [])
    (hnd : ((s.items.filter (fun it => it.cartId == c.id)).map CartItems.bookId).Nodup)
    (hok : stockCheckOk s.books (s.items.filter (fun it => it.cartId == c.id)) = true) :
    (OrderViews.post s u).1.status = 200 ∧
    (∀ it ∈ s.items.filter (fun it => it.cartId == c.id),
       findBook (OrderViews.post s u).2.books it.bookId =
         (findBook s.books it.bookId).map (fun b => { b with stock := b.stock - it.quantity })) ∧
    (OrderViews.post s u).2.carts =
      s.carts.map (fun x => if x.id == c.id then { x with is_ordered := true } else x) := by
  obtain ⟨books', hloop, hA, hB⟩ :=
    orderItemsLoop_ok_effect (s.items.filter (fun it => it.cartId == c.id)) s.books hnd
      (stockCheckOk_spec _ _ hok)
  have hemp : (s.items.filter (fun it => it.cartId == c.id)).isEmpty = false := by
    simpa [List.isEmpty_iff] using hne
  have hpost : OrderViews.post s u =
      ({ status := 200, message := "The order placed" },
       { s with books := books',
                carts := s.carts.map
                  (fun x => if x.id == c.id then { x with is_ordered := true } else x) }) := by
    unfold OrderViews.post
    simp only [hc, hemp, hloop]
    rw [if_neg (by simp)]
  rw [hpost]
  exact ⟨rfl, fun it hit => hA it hit, rfl⟩

/-- Base catalog used by the concrete witness stores. -/
def demoBooks : List Book :=
  [{ id := 1, name := "A", author := "x", description := none, price := 100, stock := 10, userId := 9 },
   { id := 2, name := "B", author := "x", description := none, price := 50, stock := 3, userId := 9 }]

/-- The active demo cart. -/
def demoCart : CartModel :=
  { id := 7, userId := 1, total_price := 350, total_quantity := 5, is_ordered := false }

/-- A store with a two-line active cart that fits the stock. -/
def demoOrderStore : Store :=
  { users := [], books := demoBooks, carts := [demoCart],
    items := [{ id := 1, cartId := 7, bookId := 1, quantity := 2, price := 200 },
              { id := 2, cartId := 7, bookId := 2, quantity := 3, price := 150 }],
    nextBookId := 3, nextCartId := 8, nextItemId := 3 }

/-- C2 witness: the concrete valid order satisfies every hypothesis and the
conclusion holds there. -/
theorem place_order_valid_succeeds_witness :
    (OrderViews.post demoOrderStore 1).1.status = 200 ∧
    (∀ it ∈ demoOrderStore.items.filter (fun it => it.cartId == demoCart.id),
       findBook (OrderViews.post demoOrderStore 1).2.books it.bookId =
         (findBook demoOrderStore.books it.bookId).map
           (fun b => { b with stock := b.stock - it.quantity })) ∧
    (OrderViews.post demoOrderStore 1).2.carts =
      demoOrderStore.carts.map
        (fun x => if x.id == demoCart.id then { x with is_ordered := true } else x) :=
  place_order_valid_succeeds demoOrderStore 1 demoCart (by decide) (by decide) (by decide)
    (by decide)

/-- C5: `cancel_order` on an id that does not resolve to an ordered cart of
the caller answers 404 and changes nothing; on one that does, it answers
200, adds each line's quantity back onto that line's book's stock (other
books untouched), and deletes the cart row together with (by cascade) its
lines. -/
theorem cancel_order_spec (s : Store) (u : Nat) (pk : Nat)
    (hnd : ((s.items.filter (fun it => it.cartId == pk)).map CartItems.bookId).Nodup)
    (hex : booksExistFor s.books (s.items.filter (fun it => it.cartId == pk)) = true) :
    (s.carts.filter (fun c => c.userId == u && c.is_ordered && c.id == pk) = [] →
      (OrderViewsByID.delete s u pk).1.status = 404 ∧ (OrderViewsByID.delete s u pk).2 = s) ∧
    (s.carts.filter (fun c => c.userId == u && c.is_ordered && c.id == pk) ≠ [] →
      (OrderViewsByID.delete s u pk).1.status = 200 ∧
      (∀ it ∈ s.items.filter (fun it => it.cartId == pk),
         findBook (OrderViewsByID.delete s u pk).2.books it.bookId =
           (findBook s.books it.bookId).map (fun b => { b with stock := b.stock + it.quantity })) ∧
      (∀ j : Nat, (∀ it ∈ s.items.filter (fun it => it.cartId == pk), it.bookId ≠ j) →
         findBook (OrderViewsByID.delete s u pk).2.books j = findBook s.books j) ∧
      (OrderViewsByID.delete s u pk).2.carts =
        s.carts.filter (fun c => !(c.userId == u && c.is_ordered && c.id == pk)) ∧
      (OrderViewsByID.delete s u pk).2.items =
        s.items.filter (fun it => it.cartId != pk)) := by
  obtain ⟨books', hloop, hA, hB⟩ :=
    cancelLoop_effect (s.items.filter (fun it => it.cartId == pk)) s.books hnd
      (booksExistFor_spec _ _ hex)
  constructor
  · intro hq
    have h1 : (s.carts.filter (fun c => c.userId == u && c.is_ordered && c.id == pk)).isEmpty
        = true := by simp [List.isEmpty_iff, hq]
    have hdel : OrderViewsByID.delete s u pk =
        ({ status := 404, message := "No order found to cancel." }, s) := by
      unfold OrderViewsByID.delete
      simp only [h1, if_true]
    rw [hdel]
    exact ⟨rfl, rfl⟩
  · intro hq
    have h1 : (s.carts.filter (fun c => c.userId == u && c.is_ordered && c.id == pk)).isEmpty
        = false := by simpa [List.isEmpty_iff] using hq
    have hdel : OrderViewsByID.delete s u pk =
        ({ status := 200, message := "Order cancelled successfully." },
         { s with books := books',
                  carts := s.carts.filter
                    (fun c => !(c.userId == u && c.is_ordered && c.id == pk)),
                  items := s.items.filter (fun it => it.cartId != pk) }) := by
      unfold OrderViewsByID.delete
      simp only [h1, Bool.false_eq_true, if_false, hloop]
    rw [hdel]
    exact ⟨rfl, fun it hit => hA it hit, fun j hj => hB j hj, rfl, rfl⟩

/-- A store holding the demo cart already ordered (stocks decremented). -/
def demoOrderedStore : Store :=
  { users := [],
    books := [{ id := 1, name := "A", author := "x", description := none, price := 100, stock := 8, userId := 9 },
              { id := 2, name := "B", author := "x", description := none, price := 50, stock := 0, userId := 9 }],
    carts := [{ demoCart with is_ordered := true }],
    items := [{ id := 1, cartId := 7, bookId := 1, quantity := 2, price := 200 },
              { id := 2, cartId := 7, bookId := 2, quantity := 3, price := 150 }],
    nextBookId := 3, nextCartId := 8, nextItemId := 3 }

/-- C5 witness: instantiating the cancel theorem on the concrete ordered
cart (both the present-cart branch and, for a foreign id, the 404 branch). -/
theorem cancel_order_spec_witness :
    ((demoOrderedStore.carts.filter
        (fun c => c.userId == 1 && c.is_ordered && c.id == 7) ≠ []) ∧
     (OrderViewsByID.delete demoOrderedStore 1 7).1.status = 200 ∧
     (∀ it ∈ demoOrderedStore.items.filter (fun it => it.cartId == 7),
        findBook (OrderViewsByID.delete demoOrderedStore 1 7).2.books it.bookId =
          (findBook demoOrderedStore.books it.bookId).map
            (fun b => { b with stock := b.stock + it.quantity })) ∧
     (∀ j : Nat, (∀ it ∈ demoOrderedStore.items.filter (fun it => it.cartId == 7),
          it.bookId ≠ j) →
        findBook (OrderViewsByID.delete demoOrderedStore 1 7).2.books j =
          findBook demoOrderedStore.books j) ∧
     (OrderViewsByID.delete demoOrderedStore 1 7).2.carts =
       demoOrderedStore.carts.filter
         (fun c => !(c.userId == 1 && c.is_ordered && c.id == 7)) ∧
     (OrderViewsByID.delete demoOrderedStore 1 7).2.items =
       demoOrderedStore.items.filter (fun it => it.cartId != 7)) ∧
    ((OrderViewsByID.delete demoOrderedStore 2 7).1.status = 404 ∧
     (OrderViewsByID.delete demoOrderedStore 2 7).2 = demoOrderedStore) := by
  refine ⟨⟨by decide, ?_⟩, ?_⟩
  · exact (cancel_order_spec demoOrderedStore 1 7 (by decide) (by decide)).2 (by decide)
  · exact (cancel_order_spec demoOrderedStore 2 7 (by decide) (by decide)).1 (by decide)

/-- C7: an add-or-update naming a book that already has a line in the
caller's active cart fails with 400 and leaves the whole store untouched
whenever the merged quantity (existing plus requested) exceeds the book's
stock — whichever of the handler's three 400 guards fires first. -/
theorem add_merge_exceeding_stock_rejected (s : Store) (u : Nat) (req : AddRequest)
    (bid qty : Int) (book : Book) (c : CartModel) (it0 : CartItems)
    (hbid : req.book_id = some bid) (hbid0 : bid ≠ 0)
    (hq : req.quantity = some qty)
    (hbook : s.books.find? (fun b => ((b.id : Int)) == bid) = some book)
    (hcart : s.carts.filter (isActiveCartOf u) = [c])
    (hitem : s.items.filter (fun x => x.cartId == c.id && x.bookId == book.id) = [it0])
    (hover : book.stock < it0.quantity + qty) :
    (CartsViews.post s u req).1.status = 400 ∧ (CartsViews.post s u req).2 = s := by
  by_cases hq0 : qty = 0
  · have ht : truthyInt req.quantity = false := by simp [hq, truthyInt, hq0]
    have hpost : CartsViews.post s u req =
        ({ status := 400, message := "book_id and quantity are required." }, s) := by
      unfold CartsViews.post
      rw [if_pos (by simp [ht])]
    rw [hpost]
    exact ⟨rfl, rfl⟩
  · have htb : truthyInt req.book_id = true := by simp [hbid, truthyInt, hbid0]
    have htq : truthyInt req.quantity = true := by simp [hq, truthyInt, hq0]
    by_cases hst : book.stock < qty
    · have hpost : CartsViews.post s u req = ({ status := 400, message := insufficientMsg book }, s) := by
        unfold CartsViews.post
        rw [if_neg (by simp [htb, htq])]
        simp only [hbid, hq, hbook, if_pos hst]
      rw [hpost]
      exact ⟨rfl, rfl⟩
    · have hpost : CartsViews.post s u req = addItemToCart s book qty c := by
        unfold CartsViews.post
        rw [if_neg (by simp [htb, htq])]
        simp only [hbid, hq, hbook, if_neg hst, hcart]
      have hadd : addItemToCart s book qty c =
          ({ status := 400, message := insufficientMsg book }, s) := by
        unfold addItemToCart
        simp only [hitem]
        rw [if_pos hover]
      rw [hpost, hadd]
      exact ⟨rfl, rfl⟩

/-- C7 witness: merging 2 more copies of book 2 (line already at 2, stock 3)
is rejected with 400 and the store is unchanged. -/
theorem add_merge_exceeding_stock_rejected_witness :
    (CartsViews.post
        { users := [], books := demoBooks, carts := [demoCart],
          items := [{ id := 2, cartId := 7, bookId := 2, quantity := 2, price := 100 }],
          nextBookId := 3, nextCartId := 8, nextItemId := 3 } 1
        { book_id := some 2, quantity := some 2 }).1.status = 400 ∧
    (CartsViews.post
        { users := [], books := demoBooks, carts := [demoCart],
          items := [{ id := 2, cartId := 7, bookId := 2, quantity := 2, price := 100 }],
          nextBookId := 3, nextCartId := 8, nextItemId := 3 } 1
        { book_id := some 2, quantity := some 2 }).2 =
      { users := [], books := demoBooks, carts := [demoCart],
        items := [{ id := 2, cartId := 7, bookId := 2, quantity := 2, price := 100 }],
        nextBookId := 3, nextCartId := 8, nextItemId := 3 } :=
  add_merge_exceeding_stock_rejected _ 1 _ 2 2
    { id := 2, name := "B", author := "x", description := none, price := 50, stock := 3, userId := 9 }
    demoCart { id := 2, cartId := 7, bookId := 2, quantity := 2, price := 100 }
    rfl (by decide) rfl (by decide) (by decide) (by decide) (by decide)

/-- C8: each catalog mutation (create, update, destroy) checks
`request.user.is_superuser` before doing anything else: a non-superuser
caller gets 403 and the store — in particular every book row — is exactly
as before. -/
theorem catalog_mutations_need_superuser (s : Store) (caller : User)
    (req : BookRequest) (pk : Nat) (h : caller.is_superuser = false) :
    (BookViewset.create s caller req).1.status = 403 ∧ (BookViewset.create s caller req).2 = s ∧
    (BookViewset.update s caller pk req).1.status = 403 ∧ (BookViewset.update s caller pk req).2 = s ∧
    (BookViewset.destroy s caller pk).1.status = 403 ∧ (BookViewset.destroy s caller pk).2 = s := by
  simp [BookViewset.create, BookViewset.update, BookViewset.destroy, h]

/-- C8 witness: a concrete non-superuser attempting all three catalog
mutations. -/
theorem catalog_mutations_need_superuser_witness :
    (BookViewset.create
        { users := [], books := demoBooks, carts := [], items := [],
          nextBookId := 3, nextCartId := 1, nextItemId := 1 }
        { id := 5, email := "u@e.x", username := "u", password := "p",
          is_verified := true, is_superuser := false }
        { name := some "C", author := some "y", description := none,
          price := some 10, stock := some 1 }).1.status = 403 ∧
    (BookViewset.create
        { users := [], books := demoBooks, carts := [], items := [],
          nextBookId := 3, nextCartId := 1, nextItemId := 1 }
        { id := 5, email := "u@e.x", username := "u", password := "p",
          is_verified := true, is_superuser := false }
        { name := some "C", author := some "y", description := none,
          price := some 10, stock := some 1 }).2 =
      { users := [], books := demoBooks, carts := [], items := [],
        nextBookId := 3, nextCartId := 1, nextItemId := 1 } ∧
    (BookViewset.update
        { users := [], books := demoBooks, carts := [], items := [],
          nextBookId := 3, nextCartId := 1, nextItemId := 1 }
        { id := 5, email := "u@e.x", username := "u", password := "p",
          is_verified := true, is_superuser := false } 1
        { name := some "C", author := some "y", description := none,
          price := some 10, stock := some 1 }).1.status = 403 ∧
    (BookViewset.update
        { users := [], books := demoBooks, carts := [], items := [],
          nextBookId := 3, nextCartId := 1, nextItemId := 1 }
        { id := 5, email := "u@e.x", username := "u", password := "p",
          is_verified := true, is_superuser := false } 1
        { name := some "C", author := some "y", description := none,
          price := some 10, stock := some 1 }).2 =
      { users := [], books := demoBooks, carts := [], items := [],
        nextBookId := 3, nextCartId := 1, nextItemId := 1 } ∧
    (BookViewset.destroy
        { users := [], books := demoBooks, carts := [], items := [],
          nextBookId := 3, nextCartId := 1, nextItemId := 1 }
        { id := 5, email := "u@e.x", username := "u", password := "p",
          is_verified := true, is_superuser := false } 1).1.status = 403 ∧
    (BookViewset.destroy
        { users := [], books := demoBooks, carts := [], items := [],
          nextBookId := 3, nextCartId := 1, nextItemId := 1 }
        { id := 5, email := "u@e.x", username := "u", password := "p",
          is_verified := true, is_superuser := false } 1).2 =
      { users := [], books := demoBooks, carts := [], items := [],
        nextBookId := 3, nextCartId := 1, nextItemId := 1 } :=
  catalog_mutations_need_superuser _ _ _ 1 (by decide)

/-- C9: a well-formed login request that fails authentication — for any
reason, against any user table — always produces the same 400 response:
the bodies for an unknown email and for a known email with a wrong
password are literally identical. -/
theorem login_mismatch_uniform (users1 users2 : List User) (req1 req2 : LoginRequest)
    (e1 p1 e2 p2 : String)
    (h1e : req1.email = some e1) (h1p : req1.password = some p1)
    (h1ne : e1 ≠ "") (h1np : p1 ≠ "")
    (h1auth : authenticate users1 e1 p1 = none)
    (h2e : req2.email = some e2) (h2p : req2.password = some p2)
    (h2ne : e2 ≠ "") (h2np : p2 ≠ "")
    (h2auth : authenticate users2 e2 p2 = none) :
    (LoginUser.post users1 req1).status = 400 ∧
    LoginUser.post users1 req1 = LoginUser.post users2 req2 := by
  have hb1 : (e1 == "") = false := beq_eq_false_iff_ne.mpr h1ne
  have hb2 : (p1 == "") = false := beq_eq_false_iff_ne.mpr h1np
  have hb3 : (e2 == "") = false := beq_eq_false_iff_ne.mpr h2ne
  have hb4 : (p2 == "") = false := beq_eq_false_iff_ne.mpr h2np
  have r1 : LoginUser.post users1 req1 =
      { status := 400, message := "Login failed", error := some "Invalid email or password" } := by
    unfold LoginUser.post
    simp only [h1e, h1p, hb1, hb2, h1auth]
    rw [if_neg (by simp)]
  have r2 : LoginUser.post users2 req2 =
      { status := 400, message := "Login failed", error := some "Invalid email or password" } := by
    unfold LoginUser.post
    simp only [h2e, h2p, hb3, hb4, h2auth]
    rw [if_neg (by simp)]
  rw [r1, r2]
  exact ⟨rfl, rfl⟩

/-- The demo user table for the login claims. -/
def demoUsers : List User :=
  [{ id := 1, email := "a@b.c", username := "a", password := "pw",
     is_verified := true, is_superuser := false }]

/-- C9 witness: against the demo user table, an unknown email
(`z@b.c`) and the known email `a@b.c` with a wrong password produce equal
400 responses — and the two scenarios really are one of each kind. -/
theorem login_mismatch_uniform_witness :
    (∀ usr ∈ demoUsers, usr.email ≠ "z@b.c") ∧
    (∃ usr ∈ demoUsers, usr.email = "a@b.c" ∧ usr.password ≠ "bad") ∧
    (LoginUser.post demoUsers { email := some "z@b.c", password := some "pw" }).status = 400 ∧
    LoginUser.post demoUsers { email := some "z@b.c", password := some "pw" } =
      LoginUser.post demoUsers { email := some "a@b.c", password := some "bad" } :=
  ⟨by decide, by decide,
   login_mismatch_uniform demoUsers demoUsers _ _ "z@b.c" "pw" "a@b.c" "bad"
     rfl rfl (by decide) (by decide) (by decide) rfl rfl (by decide) (by decide) (by decide)⟩

/-- The book found through the JSON `book_id` (an `Int`) is also what the
Nat-keyed `findBook` resolves for its id. -/
theorem findBook_of_int_find (books : List Book) (bid : Int) (book : Book)
    (h : books.find? (fun b => ((b.id : Int)) == bid) = some book) :
    findBook books book.id = some book := by
  have hbid : (book.id : Int) = bid := by simpa using List.find?_some h
  rw [findBook]
  rw [show (fun b : Book => b.id == book.id) = (fun b : Book => ((b.id : Int)) == bid) from ?_]
  · exact h
  · funext b
    by_cases hEq : b.id = book.id
    · simp [hEq, hbid]
    · have h1 : (b.id == book.id) = false := beq_eq_false_iff_ne.mpr hEq
      have h2 : (((b.id : Int)) == bid) = false := by
        rw [← hbid]
        exact beq_eq_false_iff_ne.mpr (fun hc => hEq (by exact_mod_cast hc))
      rw [h1, h2]

/-- Any successful `addItemToCart` (200 merge or 201 create) hands back the
saved cart, whose totals are the recomputed sums over its lines in the
post-state, with the touched line priced at `book.price * quantity` and the
books table untouched. -/
theorem addItemToCart_totals (s : Store) (book : Book) (qty : Int) (c : CartModel)
    (hcmem : c ∈ s.carts) :
    (addItemToCart s book qty c).1.status = 200 ∨ (addItemToCart s book qty c).1.status = 201 →
    ∃ c', (addItemToCart s book qty c).1.cart = some c' ∧
      c' ∈ (addItemToCart s book qty c).2.carts ∧
      c'.id = c.id ∧
      c'.total_quantity =
        ((cartItemsOf (addItemToCart s book qty c).2.items c'.id).map CartItems.quantity).sum ∧
      c'.total_price =
        ((cartItemsOf (addItemToCart s book qty c).2.items c'.id).map CartItems.price).sum ∧
      (addItemToCart s book qty c).2.books = s.books ∧
      ∃ it ∈ cartItemsOf (addItemToCart s book qty c).2.items c'.id,
        it.bookId = book.id ∧ it.price = book.price * it.quantity := by
  rcases hfil : s.items.filter (fun it => it.cartId == c.id && it.bookId == book.id) with
    _ | ⟨it0, _ | ⟨it1, rest⟩⟩
  · -- line freshly created
    intro _
    set nit : CartItems := { id := s.nextItemId, cartId := c.id, bookId := book.id, quantity := qty, price := book.price * qty } with hnit
    have hred : addItemToCart s book qty c =
        ({ status := 201, message := "New cart created successfully",
           cart := some (recomputeTotals (s.items ++ [nit]) c) },
         { s with items := s.items ++ [nit], nextItemId := s.nextItemId + 1,
                  carts := s.carts.map (fun x =>
                    if x.id == c.id then recomputeTotals (s.items ++ [nit]) c else x) }) := by
      unfold addItemToCart
      simp only [hfil]
      try rfl
    rw [hred]
    refine ⟨_, rfl, ?_, rfl, ?_, ?_, rfl, ?_⟩
    · exact List.mem_map.mpr ⟨c, hcmem, by simp⟩
    · exact pyOrZero_aggSum _ _
    · exact pyOrZero_aggSum _ _
    · exact ⟨nit, List.mem_filter.mpr ⟨List.mem_append_right _ (List.mem_singleton.mpr rfl), by simp [hnit, recomputeTotals]⟩, by simp [hnit], by simp [hnit]⟩
  · -- line merged into it0
    have hit0 : it0 ∈ s.items.filter (fun it => it.cartId == c.id && it.bookId == book.id) := by
      rw [hfil]
      exact List.mem_singleton.mpr rfl
    have hit0mem : it0 ∈ s.items := List.mem_of_mem_filter hit0
    have hsplit : it0.cartId = c.id ∧ it0.bookId = book.id := by
      simpa using (List.mem_filter.mp hit0).2
    by_cases hover : book.stock < it0.quantity + qty
    · intro h
      have hred : (addItemToCart s book qty c).1.status = 400 := by
        unfold addItemToCart
        simp only [hfil]
        rw [if_pos hover]
      rw [hred] at h
      simp at h
    · intro _
      set mit : CartItems := { it0 with quantity := it0.quantity + qty, price := book.price * (it0.quantity + qty) } with hmit
      have hred : addItemToCart s book qty c =
          ({ status := 200, message := "Cart updated successfully",
             cart := some (recomputeTotals (s.items.map (fun j =>
               if j.id == it0.id then mit else j)) c) },
           { s with items := s.items.map (fun j => if j.id == it0.id then mit else j),
                    carts := s.carts.map (fun x =>
                      if x.id == c.id then
                        recomputeTotals (s.items.map (fun j =>
                          if j.id == it0.id then mit else j)) c
                      else x) }) := by
        unfold addItemToCart
        simp only [hfil]
        rw [if_neg hover]
      rw [hred]
      refine ⟨_, rfl, ?_, rfl, ?_, ?_, rfl, ?_⟩
      · exact List.mem_map.mpr ⟨c, hcmem, by simp⟩
      · exact pyOrZero_aggSum _ _
      · exact pyOrZero_aggSum _ _
      · exact ⟨mit, List.mem_filter.mpr ⟨List.mem_map.mpr ⟨it0, hit0mem, by simp⟩, by simp [hmit, hsplit.1, recomputeTotals]⟩, by simp [hmit, hsplit.2], by simp [hmit]⟩
  · -- several lines for one (cart, book): the 500 path
    intro h
    have hred : (addItemToCart s book qty c).1.status = 500 := by
      unfold addItemToCart
      simp only [hfil]
    rw [hred] at h
    simp at h

/-- C6: after every successful cart mutation the saved cart's totals are
the sums of quantity and price over the lines of that cart in the
post-state; after a successful add-or-update the touched line is priced at
`book.price * quantity` for the requested book.  (Failures leave no saved
cart, so the handlers' success statuses 200/201 for add and 204 for remove
gate the conclusions.) -/
theorem cart_totals_consistent (s : Store) (u : Nat) (req : AddRequest) (pk : Nat) :
    ((CartsViews.post s u req).1.status = 200 ∨ (CartsViews.post s u req).1.status = 201 →
      ∃ c', (CartsViews.post s u req).1.cart = some c' ∧
        c' ∈ (CartsViews.post s u req).2.carts ∧
        c'.total_quantity =
          ((cartItemsOf (CartsViews.post s u req).2.items c'.id).map CartItems.quantity).sum ∧
        c'.total_price =
          ((cartItemsOf (CartsViews.post s u req).2.items c'.id).map CartItems.price).sum ∧
        (∀ bid : Int, req.book_id = some bid →
          ∃ it ∈ cartItemsOf (CartsViews.post s u req).2.items c'.id,
            ((it.bookId : Int)) = bid ∧
            ∃ b, findBook s.books it.bookId = some b ∧ it.price = b.price * it.quantity)) ∧
    ((CartsViewsByID.delete s u pk).1.status = 204 →
      ∃ c, (s.carts.filter (isActiveCartOf u)).head? = some c ∧
        ∃ c' ∈ (CartsViewsByID.delete s u pk).2.carts, c'.id = c.id ∧
          c'.total_quantity =
            ((cartItemsOf (CartsViewsByID.delete s u pk).2.items c'.id).map CartItems.quantity).sum ∧
          c'.total_price =
            ((cartItemsOf (CartsViewsByID.delete s u pk).2.items c'.id).map CartItems.price).sum) := by
  constructor
  · -- add_or_update half
    intro h
    by_cases hcond : (!truthyInt req.book_id || !truthyInt req.quantity) = true
    · have hpost : (CartsViews.post s u req).1.status = 400 := by
        unfold CartsViews.post
        rw [if_pos hcond]
      rw [hpost] at h
      simp at h
    · have htb : truthyInt req.book_id = true := by
        cases hx : truthyInt req.book_id
        · exact absurd (by simp [hx]) hcond
        · rfl
      have htq : truthyInt req.quantity = true := by
        cases hx : truthyInt req.quantity
        · exact absurd (by simp [hx]) hcond
        · rfl
      rcases hbe : req.book_id with _ | bid
      · rw [hbe] at htb
        simp [truthyInt] at htb
      rcases hqe : req.quantity with _ | qv
      · rw [hqe] at htq
        simp [truthyInt] at htq
      rcases hf : s.books.find? (fun b => ((b.id : Int)) == bid) with _ | book
      · have hpost : (CartsViews.post s u req).1.status = 404 := by
          unfold CartsViews.post
          rw [if_neg hcond]
          simp only [hbe, hqe, hf]
        rw [hpost] at h
        simp at h
      · have hbid : ((book.id : Int)) = bid := by simpa using List.find?_some hf
        by_cases hst : book.stock < qv
        · have hpost : (CartsViews.post s u req).1.status = 400 := by
            unfold CartsViews.post
            rw [if_neg hcond]
            simp only [hbe, hqe, hf]
            rw [if_pos hst]
          rw [hpost] at h
          simp at h
        · rcases hcf : s.carts.filter (isActiveCartOf u) with _ | ⟨c0, _ | ⟨c1, crest⟩⟩
          · -- no active cart: one is created, then the line is added
            have hpost : CartsViews.post s u req =
                addItemToCart
                  { s with
                      carts := s.carts ++
                        [{ id := s.nextCartId, userId := u, total_price := 0,
                           total_quantity := 0, is_ordered := false }],
                      nextCartId := s.nextCartId + 1 }
                  book qv
                  { id := s.nextCartId, userId := u, total_price := 0,
                    total_quantity := 0, is_ordered := false } := by
              unfold CartsViews.post
              rw [if_neg hcond]
              simp only [hbe, hqe, hf]
              rw [if_neg hst]
              simp only [hcf]
            rw [hpost] at h ⊢
            obtain ⟨c', hcart', hmem', _, htq', htp', hbooks', it, hitmem, hitbook, hitprice⟩ :=
              addItemToCart_totals _ book qv _
                (by exact List.mem_append_right _ (List.mem_singleton.mpr rfl)) h
            refine ⟨c', hcart', hmem', htq', htp', ?_⟩
            intro bid' hbid'
            have hbb : bid' = bid := (Option.some.inj hbid').symm
            refine ⟨it, hitmem, ?_, book, ?_, ?_⟩
            · rw [hitbook, hbid, hbb]
            · rw [hitbook]
              exact findBook_of_int_find s.books bid book hf
            · rw [hitprice]
          · -- an active cart exists
            have hpost : CartsViews.post s u req = addItemToCart s book qv c0 := by
              unfold CartsViews.post
              rw [if_neg hcond]
              simp only [hbe, hqe, hf]
              rw [if_neg hst]
              simp only [hcf]
            have hc0f : c0 ∈ s.carts.filter (isActiveCartOf u) := by
              rw [hcf]
              exact List.mem_cons_self c0 []
            have hmemc : c0 ∈ s.carts := List.mem_of_mem_filter hc0f
            rw [hpost] at h ⊢
            obtain ⟨c', hcart', hmem', _, htq', htp', hbooks', it, hitmem, hitbook, hitprice⟩ :=
              addItemToCart_totals _ book qv _ hmemc h
            refine ⟨c', hcart', hmem', htq', htp', ?_⟩
            intro bid' hbid'
            have hbb : bid' = bid := (Option.some.inj hbid').symm
            refine ⟨it, hitmem, ?_, book, ?_, ?_⟩
            · rw [hitbook, hbid, hbb]
            · rw [hitbook]
              exact findBook_of_int_find s.books bid book hf
            · rw [hitprice]
          · -- several active carts: the 500 path
            have hpost : (CartsViews.post s u req).1.status = 500 := by
              unfold CartsViews.post
              rw [if_neg hcond]
              simp only [hbe, hqe, hf]
              rw [if_neg hst]
              simp only [hcf]
            rw [hpost] at h
            simp at h
  · -- remove_item half
    intro h
    by_cases hpk : (pk == 0) = true
    · have hpost : (CartsViewsByID.delete s u pk).1.status = 400 := by
        unfold CartsViewsByID.delete
        rw [if_pos hpk]
      rw [hpost] at h
      simp at h
    · rcases hhc : (s.carts.filter (isActiveCartOf u)).head? with _ | c
      · have hpost : (CartsViewsByID.delete s u pk).1.status = 404 := by
          unfold CartsViewsByID.delete
          rw [if_neg hpk]
          simp only [hhc]
        rw [hpost] at h
        simp at h
      · rcases hhi : (s.items.filter (fun it => it.bookId == pk && it.cartId == c.id)).head? with
          _ | it
        · have hpost : (CartsViewsByID.delete s u pk).1.status = 404 := by
            unfold CartsViewsByID.delete
            rw [if_neg hpk]
            simp only [hhc, hhi]
          rw [hpost] at h
          simp at h
        · have hdel : CartsViewsByID.delete s u pk =
              ({ status := 204, message := "Item deleted successfully" },
               { s with items := s.items.filter (fun j => j.id != it.id),
                        carts := s.carts.map (fun x =>
                          if x.id == c.id then
                            recomputeTotals (s.items.filter (fun j => j.id != it.id)) c
                          else x) }) := by
            unfold CartsViewsByID.delete
            rw [if_neg hpk]
            simp only [hhc, hhi]
            try rfl
          rw [hdel]
          have hcfilter : c ∈ s.carts.filter (isActiveCartOf u) :=
            List.mem_of_mem_head? (by simp [hhc])
          have hcm : c ∈ s.carts := List.mem_of_mem_filter hcfilter
          refine ⟨c, rfl, recomputeTotals (s.items.filter (fun j => j.id != it.id)) c,
            ?_, rfl, ?_, ?_⟩
          · exact List.mem_map.mpr ⟨c, hcm, by simp⟩
          · exact pyOrZero_aggSum _ _
          · exact pyOrZero_aggSum _ _

/-- C6 witness: adding two copies of book 1 to an empty store and then
removing a line from the demo cart both satisfy the success gates, and the
recomputed-totals conclusions hold there. -/
theorem cart_totals_consistent_witness :
    (∃ c', (CartsViews.post
        { users := [], books := demoBooks, carts := [], items := [],
          nextBookId := 3, nextCartId := 8, nextItemId := 3 } 1
        { book_id := some 1, quantity := some 2 }).1.cart = some c' ∧
      c' ∈ (CartsViews.post
        { users := [], books := demoBooks, carts := [], items := [],
          nextBookId := 3, nextCartId := 8, nextItemId := 3 } 1
        { book_id := some 1, quantity := some 2 }).2.carts ∧
      c'.total_quantity =
        ((cartItemsOf (CartsViews.post
          { users := [], books := demoBooks, carts := [], items := [],
            nextBookId := 3, nextCartId := 8, nextItemId := 3 } 1
          { book_id := some 1, quantity := some 2 }).2.items c'.id).map CartItems.quantity).sum ∧
      c'.total_price =
        ((cartItemsOf (CartsViews.post
          { users := [], books := demoBooks, carts := [], items := [],
            nextBookId := 3, nextCartId := 8, nextItemId := 3 } 1
          { book_id := some 1, quantity := some 2 }).2.items c'.id).map CartItems.price).sum ∧
      (∀ bid : Int, (some 1 : Option Int) = some bid →
        ∃ it ∈ cartItemsOf (CartsViews.post
          { users := [], books := demoBooks, carts := [], items := [],
            nextBookId := 3, nextCartId := 8, nextItemId := 3 } 1
          { book_id := some 1, quantity := some 2 }).2.items c'.id,
          ((it.bookId : Int)) = bid ∧
          ∃ b, findBook demoBooks it.bookId = some b ∧ it.price = b.price * it.quantity)) ∧
    (∃ c, (demoOrderStore.carts.filter (isActiveCartOf 1)).head? = some c ∧
      ∃ c' ∈ (CartsViewsByID.delete demoOrderStore 1 1).2.carts, c'.id = c.id ∧
        c'.total_quantity =
          ((cartItemsOf (CartsViewsByID.delete demoOrderStore 1 1).2.items c'.id).map
            CartItems.quantity).sum ∧
        c'.total_price =
          ((cartItemsOf (CartsViewsByID.delete demoOrderStore 1 1).2.items c'.id).map
            CartItems.price).sum) :=
  ⟨(cart_totals_consistent
      { users := [], books := demoBooks, carts := [], items := [],
        nextBookId := 3, nextCartId := 8, nextItemId := 3 } 1
      { book_id := some 1, quantity := some 2 } 1).1 (by decide),
   (cart_totals_consistent demoOrderStore 1 { book_id := some 1, quantity := some 2 } 1).2
     (by decide)⟩

/-- A conjunction filter shrinks a one-element filter result no further
when the surviving element also passes the extra test. -/
theorem filter_and_of_filter_single {α : Type} (l : List α) (p q : α → Bool) (a : α)
    (hq : l.filter q = [a]) (hp : p a = true) :
    l.filter (fun x => p x && q x) = [a] := by
  rw [← List.filter_filter, hq]
  simp [hp]

/-- C10: removing the only line of the caller's active cart answers 204 and
keeps the cart row: it survives as an empty active cart whose totals are
recomputed to 0 (the aggregate over zero lines is null, coerced to 0), and
the subsequent cart GET finds it with 200 rather than 404. -/
theorem remove_last_item_keeps_cart (s : Store) (u : Nat) (pk : Nat)
    (c : CartModel) (it : CartItems)
    (hcartIds : (s.carts.map CartModel.id).Nodup)
    (hc : s.carts.filter (isActiveCartOf u) = [c])
    (hitems : s.items.filter (fun x => x.cartId == c.id) = [it])
    (hbk : it.bookId = pk) (hpk : pk ≠ 0) :
    (CartsViewsByID.delete s u pk).1.status = 204 ∧
    cartItemsOf (CartsViewsByID.delete s u pk).2.items c.id = [] ∧
    (CartsViewsByID.delete s u pk).2.carts.filter (isActiveCartOf u) =
      [{ c with total_price := 0, total_quantity := 0 }] ∧
    CartsViews.get (CartsViewsByID.delete s u pk).2 u =
      { status := 200, message := "The active cart of the user is Fetched",
        cart := some { c with total_price := 0, total_quantity := 0 } } := by
  have hpkb : (pk == 0) = false := beq_eq_false_iff_ne.mpr hpk
  have hfil2 : s.items.filter (fun x => x.bookId == pk && x.cartId == c.id) = [it] :=
    filter_and_of_filter_single s.items (fun x => x.bookId == pk) (fun x => x.cartId == c.id)
      it hitems (by simp [hbk])
  have hhead2 : (s.items.filter (fun x => x.bookId == pk && x.cartId == c.id)).head? = some it := by
    rw [hfil2]
    rfl
  have hdel : CartsViewsByID.delete s u pk =
      ({ status := 204, message := "Item deleted successfully" },
       { s with items := s.items.filter (fun j => j.id != it.id),
                carts := s.carts.map (fun x =>
                  if x.id == c.id then
                    recomputeTotals (s.items.filter (fun j => j.id != it.id)) c
                  else x) }) := by
    unfold CartsViewsByID.delete
    rw [if_neg (by simp [hpkb])]
    simp only [hc, List.head?_cons, hhead2]
    try rfl
  have hempty : cartItemsOf (s.items.filter (fun j => j.id != it.id)) c.id = [] := by
    unfold cartItemsOf
    rw [filter_comm, hitems]
    simp
  have hc' : recomputeTotals (s.items.filter (fun j => j.id != it.id)) c =
      { c with total_price := 0, total_quantity := 0 } := by
    unfold recomputeTotals
    rw [hempty]
    rfl
  have hc0f : c ∈ s.carts.filter (isActiveCartOf u) := by
    rw [hc]
    exact List.mem_singleton.mpr rfl
  have hpc : isActiveCartOf u c = true := (List.mem_filter.mp hc0f).2
  have hcmem : c ∈ s.carts := List.mem_of_mem_filter hc0f
  have hfa : ∀ x ∈ s.carts,
      (if x.id == c.id then recomputeTotals (s.items.filter (fun j => j.id != it.id)) c else x) =
        if x = c then { c with total_price := 0, total_quantity := 0 } else x := by
    intro x hx
    by_cases hxe : x = c
    · subst hxe
      simp [hc']
    · have hne : (x.id == c.id) = false := by
        apply beq_eq_false_iff_ne.mpr
        intro hEq
        exact hxe (List.inj_on_of_nodup_map hcartIds hx hcmem hEq)
      rw [if_neg (by simp [hne]), if_neg hxe]
  have hfilter' : (s.carts.map (fun x =>
      if x.id == c.id then
        recomputeTotals (s.items.filter (fun j => j.id != it.id)) c
      else x)).filter (isActiveCartOf u) =
        [{ c with total_price := 0, total_quantity := 0 }] := by
    apply filter_map_single s.carts (isActiveCartOf u) _ c _ hc hfa
    simpa [isActiveCartOf] using hpc
  rw [hdel]
  refine ⟨rfl, hempty, hfilter', ?_⟩
  simp only [CartsViews.get, hfilter']

/-- A store whose active cart holds exactly one line. -/
def demoSingleLineStore : Store :=
  { users := [], books := demoBooks, carts := [demoCart],
    items := [{ id := 1, cartId := 7, bookId := 1, quantity := 2, price := 200 }],
    nextBookId := 3, nextCartId := 8, nextItemId := 2 }

/-- C10 witness: removing the only line of the concrete single-line cart. -/
theorem remove_last_item_keeps_cart_witness :
    (CartsViewsByID.delete demoSingleLineStore 1 1).1.status = 204 ∧
    cartItemsOf (CartsViewsByID.delete demoSingleLineStore 1 1).2.items demoCart.id = [] ∧
    (CartsViewsByID.delete demoSingleLineStore 1 1).2.carts.filter (isActiveCartOf 1) =
      [{ demoCart with total_price := 0, total_quantity := 0 }] ∧
    CartsViews.get (CartsViewsByID.delete demoSingleLineStore 1 1).2 1 =
      { status := 200, message := "The active cart of the user is Fetched",
        cart := some { demoCart with total_price := 0, total_quantity := 0 } } :=
  remove_last_item_keeps_cart demoSingleLineStore 1 1 demoCart
    { id := 1, cartId := 7, bookId := 1, quantity := 2, price := 200 }
    (by decide) (by decide) (by decide) (by decide) (by decide)

end BookStore
